import Mathlib

/-
Verification of the storage-location state machine and dense/sparse
backend-switching logic of the device-transparent matrix abstraction
declared in Source/Math/Matrix.h.

The header declares the public surface (enums CurrentDataLocation and
MatrixType, the Matrix<ElemType> facade with its four backend slots
m_CPUMatrix / m_GPUMatrix / m_CPUSparseMatrix / m_GPUSparseMatrix, the
location/type tags m_currentDataLocation / m_matrixType, the diagnostic
counters m_numTimesDeviceChanged / m_numTimesMatrixTypeChanged, and the
inline body of CollapseDataLocation).  The method bodies live in a
translation unit that is not part of the sources at hand, so, except for
the inline bodies, each operation below is modelled from the specification
(its doc comment says so and names the missing function).

Element values are modelled as rationals (exact arithmetic); dense buffers
are column-major lists, sparse storage is a list of (row, column, value)
triples kept in compressed-column (column-major) order.
-/

namespace CNTK

/-- Location tag of a matrix handle, from Matrix.h lines 34-40. -/
inductive CurrentDataLocation where
  | NONE
  | CPU
  | GPU
  | BOTH
deriving DecidableEq

/-- Density tag of a matrix handle, from Matrix.h lines 42-47. -/
inductive MatrixType where
  | UNDETERMINED
  | DENSE
  | SPARSE
deriving DecidableEq

/-- Physical layout tag (declared in CommonMatrix.h, outside the sources at
hand); it selects a storage format and does not affect the value semantics
modelled here. -/
inductive MatrixFormat where
  | matrixFormatDense
  | matrixFormatSparseCSC
deriving DecidableEq

open CurrentDataLocation MatrixType

/-- A dense storage backend: a column-major element buffer together with the
logical shape.  The buffer may be longer than rows*cols (slack capacity kept
by grow-only resizing); entry (r,c) lives at buffer index c*rows + r. -/
structure DenseB where
  rows : Nat
  cols : Nat
  data : List ℚ
deriving DecidableEq

/-- A sparse storage backend: shape plus the non-zero triples
(row, column, value) in compressed-column order. -/
structure SparseB where
  rows : Nat
  cols : Nat
  entries : List (Nat × Nat × ℚ)
deriving DecidableEq

/-- A freshly allocated, zero-filled dense backend. -/
def zeroDense (r c : Nat) : DenseB :=
  { rows := r, cols := c, data := List.replicate (r * c) 0 }

/-- A freshly allocated, empty sparse backend. -/
def zeroSparse (r c : Nat) : SparseB :=
  { rows := r, cols := c, entries := [] }

/-- Read entry (r, c) of a dense backend (column-major). -/
def DenseB.get (b : DenseB) (r c : Nat) : ℚ :=
  b.data.getD (c * b.rows + r) 0

/-- The logical content of a dense backend: the first rows*cols buffer
entries, in column-major order (slack capacity beyond the logical size is
not part of the value). -/
def DenseB.values (b : DenseB) : List ℚ :=
  (List.range (b.rows * b.cols)).map (fun i => b.data.getD i 0)

/-- Find the stored value at key (r, c) in a sparse triple list. -/
def spLookup (s : List (Nat × Nat × ℚ)) (r c : Nat) : Option ℚ :=
  match s with
  | [] => none
  | (r', c', v) :: t => if r' = r ∧ c' = c then some v else spLookup t r c

/-- Read entry (r, c) of a sparse triple list: the stored value, or zero
when the entry is absent. -/
def spGet (s : List (Nat × Nat × ℚ)) (r c : Nat) : ℚ :=
  (spLookup s r c).getD 0

/-- Modelled from the spec: the dense-to-sparse direction of DensitySwitcher
(§4.5; the implementation is not in the sources at hand).  Scans the logical
entries in column-major order (linear index i encodes row i % rows, column
i / rows) and keeps exactly the non-zero ones, with the exact-zero
threshold the spec requires. -/
def denseToSparse (rows cols : Nat) (d : List ℚ) : List (Nat × Nat × ℚ) :=
  (List.range (rows * cols)).filterMap (fun i =>
    if d.getD i 0 = 0 then none else some (i % rows, i / rows, d.getD i 0))

/-- Modelled from the spec: the sparse-to-dense direction of DensitySwitcher
(§4.5; the implementation is not in the sources at hand).  Zero-fills a
rows*cols column-major buffer and scatters the stored values. -/
def sparseToDense (rows cols : Nat) (s : List (Nat × Nat × ℚ)) : List ℚ :=
  (List.range (rows * cols)).map (fun i => spGet s (i % rows) (i / rows))

/-- The Matrix facade (Matrix.h lines 84-718): four optional backend slots,
the density and location tags, the preferred device, and the diagnostic
counters declared at lines 104-121.  Extra model fields: m_gpuDeviceId is
the CUDA device of the device-side backends (stored inside the GPU matrix
objects in the original); m_reallocCount counts buffer reallocations (the
"zero reallocations" diagnostic of spec §8); m_numViews backs GetNumViews.
-/
structure Matrix where
  m_CPUMatrix : Option DenseB
  m_GPUMatrix : Option DenseB
  m_CPUSparseMatrix : Option SparseB
  m_GPUSparseMatrix : Option SparseB
  m_matrixType : MatrixType
  m_currentDataLocation : CurrentDataLocation
  m_preferredDeviceId : Int
  m_gpuDeviceId : Int
  m_numTimesDeviceChanged : Nat
  m_numTimesMatrixTypeChanged : Nat
  m_reallocCount : Nat
  m_numViews : Nat
deriving DecidableEq

/-- Modelled from the spec: Matrix::Init (private, Matrix.h line 192; body
not in the sources at hand).  A freshly constructed handle holds no data:
location NONE, density UNDETERMINED (spec §3: "if None, the handle holds no
data (freshly constructed/reset)"). -/
def Matrix.Init (deviceId : Int) : Matrix :=
  { m_CPUMatrix := none, m_GPUMatrix := none,
    m_CPUSparseMatrix := none, m_GPUSparseMatrix := none,
    m_matrixType := UNDETERMINED, m_currentDataLocation := NONE,
    m_preferredDeviceId := deviceId, m_gpuDeviceId := deviceId,
    m_numTimesDeviceChanged := 0, m_numTimesMatrixTypeChanged := 0,
    m_reallocCount := 0, m_numViews := 0 }

/-- Matrix::GetMatrixType (Matrix.h line 210; trivial tag read). -/
def Matrix.GetMatrixType (m : Matrix) : MatrixType :=
  m.m_matrixType

/-- Matrix::GetCurrentMatrixLocation, inline in Matrix.h line 222. -/
def Matrix.GetCurrentMatrixLocation (m : Matrix) : CurrentDataLocation :=
  m.m_currentDataLocation

/-- Modelled from the spec: Matrix::GetDeviceId (Matrix.h line 214; body not
in the sources at hand).  -1 if the current data is on the CPU, otherwise
the GPU device id of the current backend; an empty handle reports its
preferred device; dual residency resolves by the §4.1 tie-break (prefer the
backend matching the preferred device). -/
def Matrix.GetDeviceId (m : Matrix) : Int :=
  match m.m_currentDataLocation with
  | NONE => m.m_preferredDeviceId
  | CPU => -1
  | GPU => m.m_gpuDeviceId
  | BOTH => if m.m_preferredDeviceId < 0 then -1 else m.m_gpuDeviceId

/-- Which side is authoritative: the device side of the current location,
with the §4.1 tie-break (preferred device) under dual residency. -/
def Matrix.authIsGpu (m : Matrix) : Bool :=
  match m.m_currentDataLocation with
  | NONE => decide (0 ≤ m.m_preferredDeviceId)
  | CPU => false
  | GPU => true
  | BOTH => decide (0 ≤ m.m_preferredDeviceId)

/-- The authoritative dense backend slot. -/
def Matrix.authDense (m : Matrix) : Option DenseB :=
  if m.authIsGpu then m.m_GPUMatrix else m.m_CPUMatrix

/-- The authoritative sparse backend slot. -/
def Matrix.authSparse (m : Matrix) : Option SparseB :=
  if m.authIsGpu then m.m_GPUSparseMatrix else m.m_CPUSparseMatrix

/-- Modelled from the spec: Matrix::GetNumRows (Matrix.h line 224; body not
in the sources at hand): the row count of the current backend, 0 for an
empty handle. -/
def Matrix.GetNumRows (m : Matrix) : Nat :=
  match m.m_matrixType with
  | UNDETERMINED => 0
  | DENSE => (m.authDense.map DenseB.rows).getD 0
  | SPARSE => (m.authSparse.map SparseB.rows).getD 0

/-- Modelled from the spec: Matrix::GetNumCols (Matrix.h line 225; body not
in the sources at hand). -/
def Matrix.GetNumCols (m : Matrix) : Nat :=
  match m.m_matrixType with
  | UNDETERMINED => 0
  | DENSE => (m.authDense.map DenseB.cols).getD 0
  | SPARSE => (m.authSparse.map SparseB.cols).getD 0

/-- Modelled from the spec: Matrix::GetNumElements (Matrix.h line 226; body
not in the sources at hand): rows times columns of the current backend. -/
def Matrix.GetNumElements (m : Matrix) : Nat :=
  m.GetNumRows * m.GetNumCols

/-- Matrix::GetNumViews (Matrix.h line 213): the diagnostic count of Matrix
objects sharing the same storage object; in this by-value model it is the
bookkeeping field. -/
def Matrix.GetNumViews (m : Matrix) : Nat :=
  m.m_numViews

/-- Modelled from the spec: the private Matrix::SetDataLocation (Matrix.h
line 193; body not in the sources at hand): records the new location tag
and passes the density tag through (UNDETERMINED leaves the density
unchanged, as the CollapseDataLocation call site requires). -/
def Matrix.SetDataLocation (m : Matrix) (location : CurrentDataLocation)
    (type : MatrixType) : Matrix :=
  { m with m_currentDataLocation := location,
           m_matrixType := if type = UNDETERMINED then m.m_matrixType else type }

/-- Matrix::CollapseDataLocation, inline body at Matrix.h lines 182-186:
SetDataLocation(GetDeviceId() < 0 ? CPU : GPU, GetMatrixType()). -/
def Matrix.CollapseDataLocation (m : Matrix) : Matrix :=
  m.SetDataLocation (if m.GetDeviceId < 0 then CPU else GPU) m.GetMatrixType

/-- Modelled from the spec: the sized constructor
Matrix(numRows, numCols, deviceId, matrixType, matrixFormat, nnz)
(Matrix.h line 149; body not in the sources at hand): allocates a
zero-filled backend of the requested density at the requested device
(spec §4.2 Create). -/
def Matrix.Create (numRows numCols : Nat) (deviceId : Int)
    (matrixType : MatrixType) (_matrixFormat : MatrixFormat) (_nnz : Nat) : Matrix :=
  match matrixType with
  | UNDETERMINED => Matrix.Init deviceId
  | DENSE =>
    if deviceId < 0 then
      { (Matrix.Init deviceId) with
          m_CPUMatrix := some (zeroDense numRows numCols),
          m_matrixType := DENSE, m_currentDataLocation := CPU }
    else
      { (Matrix.Init deviceId) with
          m_GPUMatrix := some (zeroDense numRows numCols),
          m_matrixType := DENSE, m_currentDataLocation := GPU, m_gpuDeviceId := deviceId }
  | SPARSE =>
    if deviceId < 0 then
      { (Matrix.Init deviceId) with
          m_CPUSparseMatrix := some (zeroSparse numRows numCols),
          m_matrixType := SPARSE, m_currentDataLocation := CPU }
    else
      { (Matrix.Init deviceId) with
          m_GPUSparseMatrix := some (zeroSparse numRows numCols),
          m_matrixType := SPARSE, m_currentDataLocation := GPU, m_gpuDeviceId := deviceId }

/-- Modelled from the spec: the private _transferFromDeviceToDevice
(Matrix.h line 124; body not in the sources at hand).  Moves the current
backend from device id_from to id_to: a preserving transfer copies the
values and, when the source is kept (isBeingMoved = false), ends in BOTH
with value-equal copies (Matrix.h line 219 comment); an empty transfer
skips the copy, allocates fresh storage at the target and ends at the
target alone (spec §4.1 transfer mode 2); nothing happens when there is no
current backend to move.  The single device-side slot means a GPU-to-GPU
move relabels the device id. -/
def Matrix.transferCore (m : Matrix) (id_from id_to : Int)
    (isBeingMoved emptyTransfer : Bool) : Matrix :=
  if id_from = id_to then m
  else if id_from < 0 ∧ id_to < 0 then m
  else if 0 ≤ id_from ∧ 0 ≤ id_to then
    match m.m_matrixType, m.m_GPUMatrix, m.m_GPUSparseMatrix with
    | DENSE, some b, _ =>
      { m with m_GPUMatrix := some (if emptyTransfer then zeroDense b.rows b.cols else b),
               m_gpuDeviceId := id_to, m_currentDataLocation := GPU,
               m_numTimesDeviceChanged := m.m_numTimesDeviceChanged + 1 }
    | SPARSE, _, some s =>
      { m with m_GPUSparseMatrix := some (if emptyTransfer then zeroSparse s.rows s.cols else s),
               m_gpuDeviceId := id_to, m_currentDataLocation := GPU,
               m_numTimesDeviceChanged := m.m_numTimesDeviceChanged + 1 }
    | _, _, _ => m
  else if id_from < 0 then
    match m.m_matrixType, m.m_CPUMatrix, m.m_CPUSparseMatrix with
    | DENSE, some b, _ =>
      { m with m_GPUMatrix := some (if emptyTransfer then zeroDense b.rows b.cols else b),
               m_CPUMatrix := if !isBeingMoved && !emptyTransfer then some b else none,
               m_gpuDeviceId := id_to,
               m_currentDataLocation := if !isBeingMoved && !emptyTransfer then BOTH else GPU,
               m_numTimesDeviceChanged := m.m_numTimesDeviceChanged + 1 }
    | SPARSE, _, some s =>
      { m with m_GPUSparseMatrix := some (if emptyTransfer then zeroSparse s.rows s.cols else s),
               m_CPUSparseMatrix := if !isBeingMoved && !emptyTransfer then some s else none,
               m_gpuDeviceId := id_to,
               m_currentDataLocation := if !isBeingMoved && !emptyTransfer then BOTH else GPU,
               m_numTimesDeviceChanged := m.m_numTimesDeviceChanged + 1 }
    | _, _, _ => m
  else
    match m.m_matrixType, m.m_GPUMatrix, m.m_GPUSparseMatrix with
    | DENSE, some b, _ =>
      { m with m_CPUMatrix := some (if emptyTransfer then zeroDense b.rows b.cols else b),
               m_GPUMatrix := if !isBeingMoved && !emptyTransfer then some b else none,
               m_currentDataLocation := if !isBeingMoved && !emptyTransfer then BOTH else CPU,
               m_numTimesDeviceChanged := m.m_numTimesDeviceChanged + 1 }
    | SPARSE, _, some s =>
      { m with m_CPUSparseMatrix := some (if emptyTransfer then zeroSparse s.rows s.cols else s),
               m_GPUSparseMatrix := if !isBeingMoved && !emptyTransfer then some s else none,
               m_currentDataLocation := if !isBeingMoved && !emptyTransfer then BOTH else CPU,
               m_numTimesDeviceChanged := m.m_numTimesDeviceChanged + 1 }
    | _, _, _ => m

/-- Modelled from the spec: the public Matrix::TransferFromDeviceToDevice
(Matrix.h line 219; body not in the sources at hand): the transfer, then
the preferred-device update when requested. -/
def Matrix.TransferFromDeviceToDevice (m : Matrix) (id_from id_to : Int)
    (isBeingMoved emptyTransfer updatePreferredDevice : Bool) : Matrix :=
  let m1 := m.transferCore id_from id_to isBeingMoved emptyTransfer
  if updatePreferredDevice then { m1 with m_preferredDeviceId := id_to } else m1

/-- Whether the handle's data is already valid on device id_to: true on the
matching single location and under dual residency (spec §4.3: EnsureLocation
transitions only when the location is neither the target nor Both). -/
def Matrix.isOnDevice (m : Matrix) (id_to : Int) : Bool :=
  match m.m_currentDataLocation with
  | NONE => false
  | CPU => decide (id_to < 0)
  | GPU => decide (m.m_gpuDeviceId = id_to)
  | BOTH => true

/-- Modelled from the spec: Matrix::TransferToDeviceIfNotThere (Matrix.h
lines 220-221; body not in the sources at hand): "Same as
TransferFromDeviceToDevice() but moves only if it is currently not on the
target device"; this is the spec's EnsureLocation primitive. -/
def Matrix.TransferToDeviceIfNotThere (m : Matrix) (id_to : Int)
    (isBeingMoved emptyTransfer updatePreferredDevice : Bool) : Matrix :=
  if m.isOnDevice id_to then m
  else m.TransferFromDeviceToDevice m.GetDeviceId id_to
         isBeingMoved emptyTransfer updatePreferredDevice

/-- Modelled from the spec: Matrix::SwitchToMatrixType (Matrix.h line 223;
body not in the sources at hand).  Converts the authoritative backend
between dense and sparse (spec §4.3 SwitchDensity / §4.5 DensitySwitcher):
keepValues preserves exactly the non-zero structure, otherwise the target
backend is freshly zero/empty-allocated; the other density's slots are
dropped, so a single density remains. -/
def Matrix.SwitchToMatrixType (m : Matrix) (newMatrixType : MatrixType)
    (_newMatrixFormat : MatrixFormat) (keepValues : Bool) : Matrix :=
  if newMatrixType = m.m_matrixType then m
  else match newMatrixType with
  | UNDETERMINED => m
  | SPARSE =>
    let g := m.authIsGpu
    let b := m.authDense.getD (zeroDense 0 0)
    let e := if keepValues then denseToSparse b.rows b.cols b.data else []
    let s : SparseB := { rows := b.rows, cols := b.cols, entries := e }
    { m with m_CPUMatrix := none, m_GPUMatrix := none,
             m_CPUSparseMatrix := if g then none else some s,
             m_GPUSparseMatrix := if g then some s else none,
             m_matrixType := SPARSE,
             m_currentDataLocation := if g then GPU else CPU,
             m_numTimesMatrixTypeChanged := m.m_numTimesMatrixTypeChanged + 1 }
  | DENSE =>
    let g := m.authIsGpu
    let s := m.authSparse.getD (zeroSparse 0 0)
    let d := if keepValues then sparseToDense s.rows s.cols s.entries
             else List.replicate (s.rows * s.cols) 0
    let b : DenseB := { rows := s.rows, cols := s.cols, data := d }
    { m with m_CPUSparseMatrix := none, m_GPUSparseMatrix := none,
             m_CPUMatrix := if g then none else some b,
             m_GPUMatrix := if g then some b else none,
             m_matrixType := DENSE,
             m_currentDataLocation := if g then GPU else CPU,
             m_numTimesMatrixTypeChanged := m.m_numTimesMatrixTypeChanged + 1 }

/-- Modelled from the spec: Matrix::Resize (Matrix.h lines 273-278; body not
in the sources at hand).  Cheap same-shape early return (the header TODO at
lines 5-8 records that Resize must be cheap when it does nothing); when the
requested dense shape still fits the allocated buffer and growOnly holds,
only the shape tags change (no reallocation); otherwise the authoritative
backend is reallocated, the non-authoritative side is dropped,
and dual residency collapses to the resized location (spec §4.3). -/
def Matrix.Resize (m : Matrix) (numRows numCols _numNZElemToReserve : Nat)
    (growOnly : Bool) : Matrix :=
  if m.GetNumRows = numRows ∧ m.GetNumCols = numCols then m
  else match m.m_matrixType with
  | UNDETERMINED => m
  | DENSE =>
    let g := m.authIsGpu
    match m.authDense with
    | some b =>
      if growOnly && decide (numRows * numCols ≤ b.data.length) then
        { m with
          m_CPUMatrix := m.m_CPUMatrix.map
            (fun x => { x with rows := numRows, cols := numCols }),
          m_GPUMatrix := m.m_GPUMatrix.map
            (fun x => { x with rows := numRows, cols := numCols }) }
      else
        { m with m_CPUMatrix := if g then none else some (zeroDense numRows numCols),
                 m_GPUMatrix := if g then some (zeroDense numRows numCols) else none,
                 m_currentDataLocation := if g then GPU else CPU,
                 m_reallocCount := m.m_reallocCount + 1 }
    | none =>
      { m with m_CPUMatrix := if g then none else some (zeroDense numRows numCols),
               m_GPUMatrix := if g then some (zeroDense numRows numCols) else none,
               m_currentDataLocation := if g then GPU else CPU,
               m_reallocCount := m.m_reallocCount + 1 }
  | SPARSE =>
    let g := m.authIsGpu
    { m with m_CPUSparseMatrix := if g then none else some (zeroSparse numRows numCols),
             m_GPUSparseMatrix := if g then some (zeroSparse numRows numCols) else none,
             m_currentDataLocation := if g then GPU else CPU,
             m_reallocCount := m.m_reallocCount + 1 }

/-- Modelled from the spec: Matrix::SetValue(ElemType v) (Matrix.h line
314; body not in the sources at hand): fills every logical element of the
authoritative backend with v; the mutated side becomes sole authority
(spec §4.1 Both-to-single on mutation). -/
def Matrix.SetValue (m : Matrix) (v : ℚ) : Matrix :=
  match m.m_matrixType with
  | UNDETERMINED => m
  | DENSE =>
    match m.authDense with
    | none => m
    | some b =>
      let d := (List.range b.data.length).map
        (fun i => if i < b.rows * b.cols then v else b.data.getD i 0)
      let b' : DenseB := { b with data := d }
      if m.authIsGpu then
        { m with m_GPUMatrix := some b', m_currentDataLocation := GPU }
      else
        { m with m_CPUMatrix := some b', m_currentDataLocation := CPU }
  | SPARSE =>
    match m.authSparse with
    | none => m
    | some s =>
      let e := denseToSparse s.rows s.cols (List.replicate (s.rows * s.cols) v)
      let s' : SparseB := { s with entries := e }
      if m.authIsGpu then
        { m with m_GPUSparseMatrix := some s', m_currentDataLocation := GPU }
      else
        { m with m_CPUSparseMatrix := some s', m_currentDataLocation := CPU }

/-- Modelled from the spec: move construction / move assignment via
ShallowMoveFrom (Matrix.h lines 158-159 and 195; bodies not in the sources
at hand).  The destination takes the whole state; the moved-from handle is
left freshly initialized: location NONE, no backends, zero views
(spec §4.2). -/
def Matrix.MoveFrom (m : Matrix) : Matrix × Matrix :=
  (m, Matrix.Init m.m_preferredDeviceId)

/-- Modelled from the spec: Matrix::DeepClone (Matrix.h line 161; body not
in the sources at hand).  A full value copy into a new handle; in this
by-value state model the clone is the same state sharing storage with
nobody.  (The aliasing-sensitive half of DeepClone is verified in the
store-based model below.) -/
def Matrix.DeepClone (m : Matrix) : Matrix :=
  { m with m_numViews := 0 }

/-- Modelled from the spec: Matrix::ReleaseMemory (Matrix.h line 179; body
not in the sources at hand): drops all backends; the handle returns to the
no-data state (spec §4.1 explicit reset, Host|Device to None). -/
def Matrix.ReleaseMemory (m : Matrix) : Matrix :=
  { m with m_CPUMatrix := none, m_GPUMatrix := none,
           m_CPUSparseMatrix := none, m_GPUSparseMatrix := none,
           m_matrixType := UNDETERMINED, m_currentDataLocation := NONE }

/-- Two optional backends that are both present and equal (the dual-residency
copies). -/
def bothPairEq {α : Type} : Option α → Option α → Prop
  | some a, some b => a = b
  | _, _ => False

/-- Exactly one density applies at a time: the density tag rules out backends
of the other density (and an undetermined handle has no backends). -/
def typeOK (m : Matrix) : Prop :=
  (m.m_matrixType = DENSE →
    m.m_CPUSparseMatrix = none ∧ m.m_GPUSparseMatrix = none) ∧
  (m.m_matrixType = SPARSE →
    m.m_CPUMatrix = none ∧ m.m_GPUMatrix = none) ∧
  (m.m_matrixType = UNDETERMINED →
    m.m_CPUMatrix = none ∧ m.m_GPUMatrix = none ∧
    m.m_CPUSparseMatrix = none ∧ m.m_GPUSparseMatrix = none)

/-- When the current data location is NONE the handle holds no data. -/
def noneEmpty (m : Matrix) : Prop :=
  m.m_currentDataLocation = NONE →
    m.m_CPUMatrix = none ∧ m.m_GPUMatrix = none ∧
    m.m_CPUSparseMatrix = none ∧ m.m_GPUSparseMatrix = none

/-- When the current data location is BOTH, the host copy and the device
copy of the current density both exist and are equal, so either may be read
without a transfer. -/
def bothOK (m : Matrix) : Prop :=
  m.m_currentDataLocation = BOTH →
    (bothPairEq m.m_CPUMatrix m.m_GPUMatrix ∨
     bothPairEq m.m_CPUSparseMatrix m.m_GPUSparseMatrix)

/-- The location/density invariant of the handle, on
(m_matrixType, m_currentDataLocation, the backend slots). -/
def Inv (m : Matrix) : Prop :=
  typeOK m ∧ noneEmpty m ∧ bothOK m

/-- Mixed dense+sparse residency: a dense backend and a sparse backend alive
at the same time.  The invariant rules it out. -/
def mixedNever (m : Matrix) : Prop :=
  (m.m_CPUMatrix ≠ none ∨ m.m_GPUMatrix ≠ none) →
    m.m_CPUSparseMatrix = none ∧ m.m_GPUSparseMatrix = none

/-- Error kinds of spec §7 that the reshape/slice surface can raise. -/
inductive MatrixError where
  | ShapeMismatch
  | UnsupportedForSparse
deriving DecidableEq

/-- The pool of storage buffers that handles alias: buffer id to dense
column-major contents, plus the list of buffer ids the abstraction has
freed (the sentinel-allocator log of spec §8). -/
structure Store where
  bufs : List (List ℚ)
  freed : List Nat
deriving DecidableEq

/-- A Matrix handle as a reference into the buffer store (the view side of
the facade): which buffer backs it, its shape, the element offset of its
first element inside the buffer, and whether it owns the buffer
(matrixFlagDontOwnBuffer of Matrix.h line 153 clears the flag). -/
structure MatrixRef where
  bufId : Nat
  rows : Nat
  cols : Nat
  off : Nat
  ownsBuffer : Bool
deriving DecidableEq

/-- The contents of buffer i (empty when out of range). -/
def Store.bufAt (s : Store) (i : Nat) : List ℚ :=
  s.bufs.getD i []

/-- Replace buffer i by a function of its current contents. -/
def Store.updateBuf (s : Store) (i : Nat) (f : List ℚ → List ℚ) : Store :=
  { s with bufs := s.bufs.set i (f (s.bufAt i)) }

/-- Read element (r, c) of the handle through the store (column-major;
element (r, c) lives at buffer position off + (c*rows + r)). -/
def MatrixRef.read (s : Store) (h : MatrixRef) (r c : Nat) : ℚ :=
  (s.bufAt h.bufId).getD (h.off + (c * h.rows + r)) 0

/-- Modelled from the spec: writing one element through a handle
(Matrix::operator()(row, col), Matrix.h line 310; body not in the sources
at hand): mutates the backing buffer in place, so the change is visible to
every alias of that buffer. -/
def MatrixRef.write (s : Store) (h : MatrixRef) (r c : Nat) (v : ℚ) : Store :=
  s.updateBuf h.bufId (fun buf => buf.set (h.off + (c * h.rows + r)) v)

/-- Modelled from the spec: Matrix::ColumnSlice (Matrix.h line 239; body not
in the sources at hand): a view of columns [startColumn, startColumn+numCols)
aliasing the same buffer without copying (spec §4.3). -/
def MatrixRef.ColumnSlice (h : MatrixRef) (startColumn numCols : Nat) : MatrixRef :=
  { h with off := h.off + startColumn * h.rows, cols := numCols, ownsBuffer := false }

/-- Modelled from the spec: Matrix::AssignColumnSlice (Matrix.h lines
241-247; body not in the sources at hand): reassigns the target handle *by
reference* to fromMatrix(:, startColumn : startColumn+numCols-1) — no bytes
move, the target now aliases the source range ("AssignColumnSlice does not
transfer data, it uses external data"). -/
def MatrixRef.AssignColumnSlice (_tgt : MatrixRef) (fromMatrix : MatrixRef)
    (startColumn numCols : Nat) : MatrixRef :=
  { bufId := fromMatrix.bufId, rows := fromMatrix.rows, cols := numCols,
    off := fromMatrix.off + startColumn * fromMatrix.rows, ownsBuffer := false }

/-- Modelled from the spec: Matrix::SetColumnSlice (Matrix.h lines 241-248;
body not in the sources at hand): copies the first numCols columns of
fromMatrix *by value* into columns [startColumn, startColumn+numCols) of the
target's own buffer ("SetColumnSlice copies data"). -/
def MatrixRef.SetColumnSlice (s : Store) (tgt fromMatrix : MatrixRef)
    (startColumn numCols : Nat) : Store :=
  s.updateBuf tgt.bufId (fun buf =>
    (List.range buf.length).map (fun i =>
      if tgt.off + startColumn * tgt.rows ≤ i ∧
          i < tgt.off + (startColumn + numCols) * tgt.rows then
        MatrixRef.read s fromMatrix
          ((i - (tgt.off + startColumn * tgt.rows)) % tgt.rows)
          ((i - (tgt.off + startColumn * tgt.rows)) / tgt.rows)
      else buf.getD i 0))

/-- Modelled from the spec: Matrix::Reshape (Matrix.h line 289; body not in
the sources at hand): reinterprets the same buffer in place when
rows*cols matches the current element count, otherwise fails with
ShapeMismatch leaving the handle unchanged (spec §4.3). -/
def MatrixRef.Reshape (h : MatrixRef) (numRows numCols : Nat) :
    MatrixRef × Option MatrixError :=
  if numRows * numCols = h.rows * h.cols then
    ({ h with rows := numRows, cols := numCols }, none)
  else (h, some MatrixError.ShapeMismatch)

/-- Matrix::AsReference, inline body at Matrix.h lines 285-288:
ColumnSlice(0, GetNumCols()). -/
def MatrixRef.AsReference (h : MatrixRef) : MatrixRef :=
  h.ColumnSlice 0 h.cols

/-- Matrix::Reshaped, inline body at Matrix.h lines 290-295: take a
reference (AsReference) and reshape that reference, leaving the receiver
untouched. -/
def MatrixRef.Reshaped (h : MatrixRef) (numRows numCols : Nat) :
    MatrixRef × Option MatrixError :=
  (h.AsReference).Reshape numRows numCols

/-- The logical column-major contents of the handle's rows*cols window. -/
def MatrixRef.logical (s : Store) (h : MatrixRef) : List ℚ :=
  (List.range (h.rows * h.cols)).map (fun i => (s.bufAt h.bufId).getD (h.off + i) 0)

/-- Modelled from the spec: Matrix::DeepClone (Matrix.h line 161; body not
in the sources at hand): a full value copy into a freshly allocated buffer
owned by the new handle. -/
def MatrixRef.DeepClone (s : Store) (h : MatrixRef) : Store × MatrixRef :=
  ({ s with bufs := s.bufs ++ [h.logical s] },
   { bufId := s.bufs.length, rows := h.rows, cols := h.cols, off := 0,
     ownsBuffer := true })

/-- Modelled from the spec: the external-storage constructor
Matrix(numRows, numCols, pArray, deviceId, matrixFlags, ...) of Matrix.h
line 155: wraps the caller-supplied buffer bufId without copying;
matrixFlagDontOwnBuffer makes ownsBuffer false. -/
def MatrixRef.CreateExternal (numRows numCols : Nat) (bufId : Nat)
    (ownsBuffer : Bool) : MatrixRef :=
  { bufId := bufId, rows := numRows, cols := numCols, off := 0,
    ownsBuffer := ownsBuffer }

/-- Modelled from the spec: destruction (~Matrix / ReleaseMemory, Matrix.h
lines 179-180; bodies not in the sources at hand): an owned buffer is
freed (cleared and logged in the freed list); a backend marked !ownsBuffer
wraps caller memory and is never freed (spec §3). -/
def MatrixRef.destroy (s : Store) (h : MatrixRef) : Store :=
  if h.ownsBuffer then
    { bufs := s.bufs.set h.bufId [], freed := h.bufId :: s.freed }
  else s

/-- Matrix::AreEqual (Matrix.h line 667) on store handles: same shape and
every entry within the threshold (default 1e-8). -/
def AreEqual (s : Store) (a b : MatrixRef) (threshold : ℚ) : Prop :=
  a.rows = b.rows ∧ a.cols = b.cols ∧
  ∀ r c, r < a.rows → c < a.cols →
    |MatrixRef.read s a r c - MatrixRef.read s b r c| ≤ threshold

/-- Matrix::IsEqualTo (Matrix.h line 517) on dense backends: same shape and
every entry within the threshold (default 1e-8). -/
def DenseB.IsEqualTo (a b : DenseB) (threshold : ℚ) : Prop :=
  a.rows = b.rows ∧ a.cols = b.cols ∧
  ∀ r c, r < a.rows → c < a.cols → |a.get r c - b.get r c| ≤ threshold

/-- A small concrete 2x2 dense backend (entries 1,0 / 0,2 column-major)
used to instantiate the handle theorems. -/
def bWit : DenseB :=
  { rows := 2, cols := 2, data := [1, 0, 0, 2] }

/-- A small concrete dense host matrix over bWit used to instantiate the
handle theorems. -/
def mWit : Matrix :=
  { (Matrix.Init (-1)) with
      m_CPUMatrix := some bWit,
      m_matrixType := DENSE, m_currentDataLocation := CPU }

/-- A concrete two-buffer store used to instantiate the store theorems. -/
def sWit : Store :=
  { bufs := [[1, 2, 3, 4, 5, 6], [0, 0, 0, 0, 0, 0]], freed := [] }

/-- A concrete 2x3 handle over buffer 0 of sWit. -/
def srcWit : MatrixRef :=
  { bufId := 0, rows := 2, cols := 3, off := 0, ownsBuffer := true }

/-- A concrete 2x3 handle over buffer 1 of sWit. -/
def tgtWit : MatrixRef :=
  { bufId := 1, rows := 2, cols := 3, off := 0, ownsBuffer := true }

/-- A concrete handle wrapping caller-supplied buffer 0 without ownership. -/
def extWit : MatrixRef :=
  MatrixRef.CreateExternal 2 3 0 false

theorem getD_map_range {α : Type} (f : Nat → α) (n i : Nat) (d : α) (h : i < n) :
    ((List.range n).map f).getD i d = f i := by
  rw [List.getD_eq_getElem?_getD]
  simp [List.getElem?_map, List.getElem?_range, h]

theorem getD_self_map_range (l : List ℚ) :
    (List.range l.length).map (fun i => l.getD i 0) = l := by
  apply List.ext_getElem
  · simp
  · intro i h1 h2
    simp only [List.getElem_map, List.getElem_range]
    rw [List.getD_eq_getElem?_getD, List.getElem?_eq_getElem h2]
    rfl

theorem spLookup_eq_none (s : List (Nat × Nat × ℚ)) (r c : Nat)
    (h : ∀ v, (r, c, v) ∉ s) : spLookup s r c = none := by
  induction s with
  | nil => rfl
  | cons hd t ih =>
    obtain ⟨r', c', v⟩ := hd
    simp only [spLookup]
    rw [if_neg, ih]
    · intro v hv
      exact h v (List.mem_cons_of_mem _ hv)
    · rintro ⟨rfl, rfl⟩
      exact h v (List.mem_cons_self _ _)

theorem spLookup_eq_some (s : List (Nat × Nat × ℚ)) (r c : Nat) (v : ℚ)
    (hmem : (r, c, v) ∈ s) (huniq : ∀ w, (r, c, w) ∈ s → w = v) :
    spLookup s r c = some v := by
  induction s with
  | nil => cases hmem
  | cons hd t ih =>
    obtain ⟨r', c', w⟩ := hd
    simp only [spLookup]
    by_cases hk : r' = r ∧ c' = c
    · obtain ⟨rfl, rfl⟩ := hk
      rw [if_pos ⟨rfl, rfl⟩]
      exact congrArg some (huniq w (List.mem_cons_self _ _))
    · rw [if_neg hk]
      apply ih
      · rcases List.mem_cons.mp hmem with heq | ht
        · exact absurd ⟨(Prod.ext_iff.mp heq).1.symm,
            (Prod.ext_iff.mp (Prod.ext_iff.mp heq).2).1.symm⟩ hk
        · exact ht
      · intro w' hw'
        exact huniq w' (List.mem_cons_of_mem _ hw')

theorem mem_denseToSparse {rows cols : Nat} {d : List ℚ} {t : Nat × Nat × ℚ}
    (h : t ∈ denseToSparse rows cols d) :
    ∃ i, i < rows * cols ∧ t = (i % rows, i / rows, d.getD i 0) ∧ d.getD i 0 ≠ 0 := by
  simp only [denseToSparse, List.mem_filterMap, List.mem_range] at h
  obtain ⟨i, hi, hsome⟩ := h
  by_cases hz : d.getD i 0 = 0
  · rw [if_pos hz] at hsome
    cases hsome
  · rw [if_neg hz] at hsome
    exact ⟨i, hi, (Option.some_inj.mp hsome).symm, hz⟩

theorem denseToSparse_mem {rows cols : Nat} {d : List ℚ} {i : Nat}
    (hi : i < rows * cols) (hnz : d.getD i 0 ≠ 0) :
    (i % rows, i / rows, d.getD i 0) ∈ denseToSparse rows cols d := by
  simp only [denseToSparse, List.mem_filterMap, List.mem_range]
  exact ⟨i, hi, by rw [if_neg hnz]⟩

theorem key_inj {rows i j : Nat} (hmod : j % rows = i % rows)
    (hdiv : j / rows = i / rows) : j = i := by
  have hi := Nat.div_add_mod i rows
  have hj := Nat.div_add_mod j rows
  rw [hmod, hdiv] at hj
  omega

theorem spGet_denseToSparse (rows cols : Nat) (d : List ℚ) (i : Nat)
    (hi : i < rows * cols) :
    spGet (denseToSparse rows cols d) (i % rows) (i / rows) = d.getD i 0 := by
  by_cases hz : d.getD i 0 = 0
  · have hnone : spLookup (denseToSparse rows cols d) (i % rows) (i / rows) = none := by
      apply spLookup_eq_none
      intro v hv
      obtain ⟨j, _, hEq, hnz⟩ := mem_denseToSparse hv
      rw [Prod.mk.injEq, Prod.mk.injEq] at hEq
      obtain ⟨h1, h2, h3⟩ := hEq
      rw [key_inj h1.symm h2.symm] at hnz
      exact hnz hz
    rw [spGet, hnone, hz]
    rfl
  · have hsome : spLookup (denseToSparse rows cols d) (i % rows) (i / rows) =
        some (d.getD i 0) := by
      apply spLookup_eq_some _ _ _ _ (denseToSparse_mem hi hz)
      intro w hw
      obtain ⟨j, _, hEq, _⟩ := mem_denseToSparse hw
      rw [Prod.mk.injEq, Prod.mk.injEq] at hEq
      obtain ⟨h1, h2, h3⟩ := hEq
      rw [h3, key_inj h1.symm h2.symm]
    rw [spGet, hsome]
    rfl

/-- The dense-to-sparse-to-dense round trip reproduces the logical dense
content exactly. -/
theorem sparseToDense_denseToSparse (rows cols : Nat) (d : List ℚ) :
    sparseToDense rows cols (denseToSparse rows cols d) =
      (List.range (rows * cols)).map (fun i => d.getD i 0) := by
  unfold sparseToDense
  apply List.map_congr_left
  intro i hi
  exact spGet_denseToSparse rows cols d i (List.mem_range.mp hi)

/-- denseToSparse only depends on the logical reads of the buffer. -/
theorem denseToSparse_logical (rows cols : Nat) (d : List ℚ) :
    denseToSparse rows cols ((List.range (rows * cols)).map (fun i => d.getD i 0)) =
      denseToSparse rows cols d := by
  unfold denseToSparse
  apply List.filterMap_congr
  intro i hi
  rw [getD_map_range _ _ _ _ (List.mem_range.mp hi)]

theorem Inv_implies_mixedNever (m : Matrix) (h : Inv m) : mixedNever m := by
  obtain ⟨⟨hd, hs, hu⟩, -, -⟩ := h
  intro hdense
  cases hty : m.m_matrixType with
  | DENSE => exact hd hty
  | SPARSE =>
    obtain ⟨h1, h2⟩ := hs hty
    rw [h1, h2] at hdense
    simp at hdense
  | UNDETERMINED =>
    obtain ⟨h1, h2, h3, h4⟩ := hu hty
    exact ⟨h3, h4⟩

theorem Inv_Init (d : Int) : Inv (Matrix.Init d) := by
  refine ⟨⟨?_, ?_, ?_⟩, ?_, ?_⟩ <;> intro h <;> simp [Matrix.Init] at h ⊢

theorem Inv_Create (r c : Nat) (d : Int) (ty : MatrixType) (fmt : MatrixFormat)
    (nnz : Nat) : Inv (Matrix.Create r c d ty fmt nnz) := by
  unfold Matrix.Create
  split
  · exact Inv_Init d
  · split <;>
      (refine ⟨⟨?_, ?_, ?_⟩, ?_, ?_⟩ <;> intro _h <;>
        simp_all [Matrix.Init, typeOK, noneEmpty, bothOK])
  · split <;>
      (refine ⟨⟨?_, ?_, ?_⟩, ?_, ?_⟩ <;> intro _h <;>
        simp_all [Matrix.Init, typeOK, noneEmpty, bothOK])

theorem Inv_ReleaseMemory (m : Matrix) (_h : Inv m) : Inv m.ReleaseMemory := by
  refine ⟨⟨?_, ?_, ?_⟩, ?_, ?_⟩ <;> intro hx <;>
    simp [Matrix.ReleaseMemory, typeOK, noneEmpty, bothOK] at hx ⊢

theorem Inv_CollapseDataLocation (m : Matrix) (h : Inv m) :
    Inv m.CollapseDataLocation := by
  obtain ⟨ht, hn, hb⟩ := h
  unfold Matrix.CollapseDataLocation Matrix.SetDataLocation Matrix.GetMatrixType
  refine ⟨?_, ?_, ?_⟩
  · simpa [typeOK, ite_self] using ht
  · intro hx
    simp only [noneEmpty] at hx
    split at hx <;> cases hx
  · intro hx
    simp only [bothOK] at hx
    split at hx <;> cases hx

theorem Inv_MoveFrom (m : Matrix) (h : Inv m) :
    Inv (m.MoveFrom).1 ∧ Inv (m.MoveFrom).2 := by
  exact ⟨h, Inv_Init m.m_preferredDeviceId⟩

theorem Inv_DeepClone (m : Matrix) (h : Inv m) : Inv m.DeepClone := by
  obtain ⟨⟨h1, h2, h3⟩, hn, hb⟩ := h
  exact ⟨⟨h1, h2, h3⟩, hn, hb⟩

theorem Inv_SwitchToMatrixType (m : Matrix) (h : Inv m) (ty : MatrixType)
    (fmt : MatrixFormat) (kv : Bool) : Inv (m.SwitchToMatrixType ty fmt kv) := by
  obtain ⟨⟨hd, hs, hu⟩, hn, hb⟩ := h
  unfold Matrix.SwitchToMatrixType
  split
  · exact ⟨⟨hd, hs, hu⟩, hn, hb⟩
  split
  · exact ⟨⟨hd, hs, hu⟩, hn, hb⟩
  · cases hg : m.authIsGpu <;>
      (refine ⟨⟨?_, ?_, ?_⟩, ?_, ?_⟩ <;> intro hx <;>
        simp_all [typeOK, noneEmpty, bothOK])
  · cases hg : m.authIsGpu <;>
      (refine ⟨⟨?_, ?_, ?_⟩, ?_, ?_⟩ <;> intro hx <;>
        simp_all [typeOK, noneEmpty, bothOK])

theorem Inv_SetValue (m : Matrix) (h : Inv m) (v : ℚ) : Inv (m.SetValue v) := by
  obtain ⟨⟨hd, hs, hu⟩, hn, hb⟩ := h
  unfold Matrix.SetValue
  split
  · exact ⟨⟨hd, hs, hu⟩, hn, hb⟩
  · split
    · exact ⟨⟨hd, hs, hu⟩, hn, hb⟩
    · split <;>
        (refine ⟨⟨?_, ?_, ?_⟩, ?_, ?_⟩ <;> intro hx <;>
          simp_all [typeOK, noneEmpty, bothOK])
  · split
    · exact ⟨⟨hd, hs, hu⟩, hn, hb⟩
    · split <;>
        (refine ⟨⟨?_, ?_, ?_⟩, ?_, ?_⟩ <;> intro hx <;>
          simp_all [typeOK, noneEmpty, bothOK])

theorem Inv_Resize (m : Matrix) (h : Inv m) (r c n : Nat) (growOnly : Bool) :
    Inv (m.Resize r c n growOnly) := by
  obtain ⟨⟨hd, hs, hu⟩, hn, hb⟩ := h
  unfold Matrix.Resize
  split
  · exact ⟨⟨hd, hs, hu⟩, hn, hb⟩
  split
  · exact ⟨⟨hd, hs, hu⟩, hn, hb⟩
  · -- DENSE
    split
    · -- a backend exists on the authoritative side
      split
      · -- shape fits the allocated buffer: only the shape tags change
        refine ⟨⟨?_, ?_, ?_⟩, ?_, ?_⟩ <;> intro hx
        · simp_all [typeOK]
        · simp_all
        · simp_all
        · obtain ⟨h1, h2, h3, h4⟩ := hn hx
          simp_all
        · rcases hb hx with hpair | hpair
          · rcases hcpu : m.m_CPUMatrix with _ | b1 <;>
              rcases hgpu : m.m_GPUMatrix with _ | b2 <;>
              simp_all [bothPairEq]
          · right
            simpa using hpair
      · -- reallocation on the authoritative side
        cases hg : m.authIsGpu <;>
          (refine ⟨⟨?_, ?_, ?_⟩, ?_, ?_⟩ <;> intro hx <;>
            simp_all [typeOK, noneEmpty, bothOK])
    · cases hg : m.authIsGpu <;>
        (refine ⟨⟨?_, ?_, ?_⟩, ?_, ?_⟩ <;> intro hx <;>
          simp_all [typeOK, noneEmpty, bothOK])
  · -- SPARSE
    cases hg : m.authIsGpu <;>
      (refine ⟨⟨?_, ?_, ?_⟩, ?_, ?_⟩ <;> intro hx <;>
        simp_all [typeOK, noneEmpty, bothOK])

set_option maxHeartbeats 2000000 in
theorem Inv_transferCore (m : Matrix) (h : Inv m) (f t : Int)
    (bm e : Bool) : Inv (m.transferCore f t bm e) := by
  obtain ⟨⟨hd, hs, hu⟩, hn, hb⟩ := h
  unfold Matrix.transferCore
  split
  · exact ⟨⟨hd, hs, hu⟩, hn, hb⟩
  split
  · exact ⟨⟨hd, hs, hu⟩, hn, hb⟩
  split
  · split <;>
      first
      | exact ⟨⟨hd, hs, hu⟩, hn, hb⟩
      | (refine ⟨⟨?_, ?_, ?_⟩, ?_, ?_⟩ <;> intro hx <;>
          simp_all [typeOK, noneEmpty, bothOK, bothPairEq])
  split
  · split <;>
      first
      | exact ⟨⟨hd, hs, hu⟩, hn, hb⟩
      | (cases bm <;> cases e <;>
          refine ⟨⟨?_, ?_, ?_⟩, ?_, ?_⟩ <;> intro hx <;>
          simp_all [typeOK, noneEmpty, bothOK, bothPairEq])
  · split <;>
      first
      | exact ⟨⟨hd, hs, hu⟩, hn, hb⟩
      | (cases bm <;> cases e <;>
          refine ⟨⟨?_, ?_, ?_⟩, ?_, ?_⟩ <;> intro hx <;>
          simp_all [typeOK, noneEmpty, bothOK, bothPairEq])

theorem Inv_TransferFromDeviceToDevice (m : Matrix) (h : Inv m) (f t : Int)
    (bm e u : Bool) : Inv (m.TransferFromDeviceToDevice f t bm e u) := by
  have hc := Inv_transferCore m h f t bm e
  unfold Matrix.TransferFromDeviceToDevice
  split
  · exact hc
  · exact hc

theorem Inv_TransferToDeviceIfNotThere (m : Matrix) (h : Inv m) (t : Int)
    (bm e u : Bool) : Inv (m.TransferToDeviceIfNotThere t bm e u) := by
  unfold Matrix.TransferToDeviceIfNotThere
  split
  · exact h
  · exact Inv_TransferFromDeviceToDevice m h _ t bm e u

theorem isOnDevice_pref (m : Matrix) (p t : Int) :
    ({ m with m_preferredDeviceId := p } : Matrix).isOnDevice t = m.isOnDevice t := rfl

theorem pref_idem (m : Matrix) (t : Int) (h : m.m_preferredDeviceId = t) :
    ({ m with m_preferredDeviceId := t } : Matrix) = m := by
  cases m
  simp_all

theorem getDeviceId_pref_eq (m : Matrix) (p : Int)
    (h1 : m.m_currentDataLocation ≠ NONE) (h2 : m.m_currentDataLocation ≠ BOTH) :
    ({ m with m_preferredDeviceId := p } : Matrix).GetDeviceId = m.GetDeviceId := by
  unfold Matrix.GetDeviceId
  cases hl : m.m_currentDataLocation <;> simp_all

theorem transferCore_pref (m : Matrix) (p f t : Int) (bm e : Bool) :
    ({ m with m_preferredDeviceId := p } : Matrix).transferCore f t bm e
      = { m.transferCore f t bm e with m_preferredDeviceId := p } := by
  unfold Matrix.transferCore
  by_cases h1 : f = t
  · simp [h1]
  by_cases hf : f < 0 <;> by_cases ht : t < 0
  · simp [h1, hf, ht]
  · have hf0 : ¬ (0 : Int) ≤ f := by omega
    have ht0 : (0 : Int) ≤ t := by omega
    simp only [h1, hf, ht, hf0, ht0, true_and, and_true, false_and, and_false,
      if_false, if_true, ite_false, ite_true]
    cases hty : m.m_matrixType <;>
      cases hcd : m.m_CPUMatrix <;>
        cases hcs : m.m_CPUSparseMatrix <;> simp_all
  · have hf0 : (0 : Int) ≤ f := by omega
    have ht0 : ¬ (0 : Int) ≤ t := by omega
    simp only [h1, hf, ht, hf0, ht0, true_and, and_true, false_and, and_false,
      if_false, if_true, ite_false, ite_true]
    cases hty : m.m_matrixType <;>
      cases hgd : m.m_GPUMatrix <;>
        cases hgs : m.m_GPUSparseMatrix <;> simp_all
  · have hf0 : (0 : Int) ≤ f := by omega
    have ht0 : (0 : Int) ≤ t := by omega
    simp only [h1, hf, ht, hf0, ht0, true_and, and_true, false_and, and_false,
      if_false, if_true, ite_false, ite_true]
    cases hty : m.m_matrixType <;>
      cases hgd : m.m_GPUMatrix <;>
        cases hgs : m.m_GPUSparseMatrix <;> simp_all

theorem transferCore_cases (m : Matrix) (f t : Int) (bm e : Bool) :
    (m.transferCore f t bm e).isOnDevice t = true ∨ m.transferCore f t bm e = m := by
  unfold Matrix.transferCore
  by_cases h1 : f = t
  · right; simp [h1]
  by_cases hf : f < 0 <;> by_cases ht : t < 0
  · right; simp [h1, hf, ht]
  · -- CPU to GPU
    have hf0 : ¬ (0 : Int) ≤ f := by omega
    have ht0 : (0 : Int) ≤ t := by omega
    simp only [h1, hf, ht, hf0, ht0, true_and, and_true, false_and, and_false,
      if_false, if_true, ite_false, ite_true]
    cases hty : m.m_matrixType <;>
      cases hcd : m.m_CPUMatrix <;>
        cases hcs : m.m_CPUSparseMatrix <;>
          first
          | (right; rfl)
          | (left; cases bm <;> cases e <;> simp [Matrix.isOnDevice])
  · -- GPU to CPU
    have hf0 : (0 : Int) ≤ f := by omega
    have ht0 : ¬ (0 : Int) ≤ t := by omega
    simp only [h1, hf, ht, hf0, ht0, true_and, and_true, false_and, and_false,
      if_false, if_true, ite_false, ite_true]
    cases hty : m.m_matrixType <;>
      cases hgd : m.m_GPUMatrix <;>
        cases hgs : m.m_GPUSparseMatrix <;>
          first
          | (right; rfl)
          | (left; cases bm <;> cases e <;> simp [Matrix.isOnDevice, ht])
  · -- GPU to GPU relabel
    have hf0 : (0 : Int) ≤ f := by omega
    have ht0 : (0 : Int) ≤ t := by omega
    simp only [h1, hf, ht, hf0, ht0, true_and, and_true, false_and, and_false,
      if_false, if_true, ite_false, ite_true]
    cases hty : m.m_matrixType <;>
      cases hgd : m.m_GPUMatrix <;>
        cases hgs : m.m_GPUSparseMatrix <;>
          first
          | (right; rfl)
          | (left; simp [Matrix.isOnDevice])

/-- A handle already resident on the target device is left untouched. -/
theorem tNT_of_isOnDevice (x : Matrix) (t : Int) (bm e u : Bool)
    (h : x.isOnDevice t = true) : x.TransferToDeviceIfNotThere t bm e u = x := by
  simp [Matrix.TransferToDeviceIfNotThere, h]

/-- EnsureLocation is a fixpoint after one application: a second
TransferToDeviceIfNotThere with the same target leaves the handle exactly
as the first call left it. -/
theorem tNT_fixpoint (m : Matrix) (t : Int) (bm e u : Bool) :
    (m.TransferToDeviceIfNotThere t bm e u).TransferToDeviceIfNotThere t bm e u
      = m.TransferToDeviceIfNotThere t bm e u := by
  by_cases h1 : m.isOnDevice t = true
  · rw [tNT_of_isOnDevice m t bm e u h1]
    exact tNT_of_isOnDevice m t bm e u h1
  have h1' : m.isOnDevice t = false := by
    simpa using h1
  have hMdef : m.TransferToDeviceIfNotThere t bm e u
      = m.TransferFromDeviceToDevice m.GetDeviceId t bm e u := by
    simp [Matrix.TransferToDeviceIfNotThere, h1']
  rcases transferCore_cases m m.GetDeviceId t bm e with hon | hnoop
  · -- a real transfer happened: the handle is now on the target device
    have honM : (m.TransferToDeviceIfNotThere t bm e u).isOnDevice t = true := by
      rw [hMdef]
      unfold Matrix.TransferFromDeviceToDevice
      cases u with
      | true => simpa [isOnDevice_pref] using hon
      | false => simpa using hon
    exact tNT_of_isOnDevice _ t bm e u honM
  · -- the transfer core did nothing
    cases u with
    | false =>
      have hM : m.TransferToDeviceIfNotThere t bm e false = m := by
        rw [hMdef]
        simp [Matrix.TransferFromDeviceToDevice, hnoop]
      rw [hM]
      exact hM
    | true =>
      have hM : m.TransferToDeviceIfNotThere t bm e true
          = { m with m_preferredDeviceId := t } := by
        rw [hMdef]
        simp [Matrix.TransferFromDeviceToDevice, hnoop]
      rw [hM]
      have hod : ({ m with m_preferredDeviceId := t } : Matrix).isOnDevice t = false := by
        rw [isOnDevice_pref]
        exact h1'
      have hM2 : ({ m with m_preferredDeviceId := t } : Matrix).TransferToDeviceIfNotThere t bm e true
          = ({ m with m_preferredDeviceId := t } : Matrix).TransferFromDeviceToDevice
              ({ m with m_preferredDeviceId := t } : Matrix).GetDeviceId t bm e true := by
        simp [Matrix.TransferToDeviceIfNotThere, hod]
      rw [hM2]
      by_cases hloc : m.m_currentDataLocation = NONE
      · have hdev : ({ m with m_preferredDeviceId := t } : Matrix).GetDeviceId = t := by
          unfold Matrix.GetDeviceId
          simp [hloc]
        rw [hdev]
        unfold Matrix.TransferFromDeviceToDevice
        unfold Matrix.transferCore
        rw [if_pos rfl]
        simp
      · have hBoth : m.m_currentDataLocation ≠ BOTH := by
          intro hc
          simp [Matrix.isOnDevice, hc] at h1'
        have hdev := getDeviceId_pref_eq m t hloc hBoth
        rw [hdev]
        unfold Matrix.TransferFromDeviceToDevice
        rw [transferCore_pref, hnoop]
        simp

theorem idx_lt {r c rows cols : Nat} (hr : r < rows) (hc : c < cols) :
    c * rows + r < rows * cols := by
  have h1 : c * rows + r < (c + 1) * rows := by
    rw [Nat.succ_mul]
    omega
  have h2 : (c + 1) * rows ≤ cols * rows :=
    Nat.mul_le_mul_right rows hc
  rw [Nat.mul_comm rows cols]
  omega

theorem idx_mod {r c rows : Nat} (hr : r < rows) : (c * rows + r) % rows = r := by
  rw [Nat.add_comm, Nat.add_mul_mod_self_right]
  exact Nat.mod_eq_of_lt hr

theorem idx_div {r c rows : Nat} (hr : r < rows) : (c * rows + r) / rows = c := by
  rw [Nat.add_comm, Nat.add_mul_div_right _ _ (by omega : 0 < rows)]
  simp [Nat.div_eq_of_lt hr]

theorem getD_set_self (l : List ℚ) (i : Nat) (v : ℚ) (h : i < l.length) :
    (l.set i v).getD i 0 = v := by
  rw [List.getD_eq_getElem?_getD]
  simp [List.getElem?_set_self, h]

theorem getD_set_ne (l : List ℚ) (i j : Nat) (v : ℚ) (h : i ≠ j) :
    (l.set i v).getD j 0 = l.getD j 0 := by
  rw [List.getD_eq_getElem?_getD, List.getD_eq_getElem?_getD]
  rw [List.getElem?_set_ne h]

theorem getD_append_left {α : Type} (l l2 : List α) (i : Nat) (d : α)
    (h : i < l.length) : (l ++ l2).getD i d = l.getD i d := by
  rw [List.getD_eq_getElem?_getD, List.getD_eq_getElem?_getD,
    List.getElem?_append_left h]

theorem getD_append_self {α : Type} (l : List α) (x : α) (d : α) :
    (l ++ [x]).getD l.length d = x := by
  rw [List.getD_eq_getElem?_getD, List.getElem?_append_right (le_refl _)]
  simp

/-- C10: after CollapseDataLocation the current data location equals CPU
when GetDeviceId() < 0 and GPU otherwise — in particular never BOTH — while
the matrix type is passed through unchanged, from any prior location
state. -/
theorem C10_collapse_forces_single_location (m : Matrix) :
    (m.CollapseDataLocation).m_currentDataLocation
        = (if m.GetDeviceId < 0 then CPU else GPU) ∧
    (m.CollapseDataLocation).m_currentDataLocation ≠ BOTH ∧
    (m.CollapseDataLocation).m_matrixType = m.m_matrixType := by
  unfold Matrix.CollapseDataLocation Matrix.SetDataLocation Matrix.GetMatrixType
  refine ⟨rfl, ?_, ?_⟩
  · show (if m.GetDeviceId < 0 then CPU else GPU) ≠ BOTH
    split <;> simp
  · simp

/-- C6: move construction/assignment gives the destination the entire
state of the source handle and leaves the moved-from handle in the NONE
location state with GetNumElements() = 0 and zero views. -/
theorem C6_move_leaves_none (m : Matrix) :
    (m.MoveFrom).1 = m ∧
    (m.MoveFrom).2.m_currentDataLocation = NONE ∧
    (m.MoveFrom).2.GetNumElements = 0 ∧
    (m.MoveFrom).2.GetNumViews = 0 :=
  ⟨rfl, rfl, rfl, rfl⟩

/-- C5: Resize(r, c, nnzHint, growOnly=true) on a handle already sized
(r, c) performs zero reallocations and leaves the handle — storage, shape
and values — unchanged. -/
theorem C5_resize_noop (m : Matrix) (r c nnz : Nat)
    (hr : m.GetNumRows = r) (hc : m.GetNumCols = c) :
    m.Resize r c nnz true = m ∧
    (m.Resize r c nnz true).m_reallocCount = m.m_reallocCount := by
  have h : m.Resize r c nnz true = m := by
    unfold Matrix.Resize
    rw [if_pos ⟨hr, hc⟩]
  exact ⟨h, by rw [h]⟩

theorem C5_resize_noop_witness :
    mWit.Resize 2 2 10000 true = mWit ∧
    (mWit.Resize 2 2 10000 true).m_reallocCount = mWit.m_reallocCount :=
  C5_resize_noop mWit 2 2 10000 rfl rfl

/-- C2: the EnsureLocation primitive TransferToDeviceIfNotThere is
idempotent: calling it twice in a row with the same target performs zero
additional transfers on the second call — the location-change counter
m_numTimesDeviceChanged after the second call equals the counter after the
first call. -/
theorem C2_ensureLocation_idempotent (m : Matrix) (id_to : Int)
    (isBeingMoved emptyTransfer updatePreferredDevice : Bool) :
    ((m.TransferToDeviceIfNotThere id_to isBeingMoved emptyTransfer
        updatePreferredDevice).TransferToDeviceIfNotThere id_to isBeingMoved
        emptyTransfer updatePreferredDevice).m_numTimesDeviceChanged
      = (m.TransferToDeviceIfNotThere id_to isBeingMoved emptyTransfer
          updatePreferredDevice).m_numTimesDeviceChanged := by
  rw [tNT_fixpoint]

/-- C9: destroying a handle constructed over a caller-supplied buffer with
ownsBuffer=false never frees (nor attempts to free) the caller's memory:
the store — every buffer's contents and the freed log — is unchanged by the
destruction. -/
theorem C9_external_buffer_not_freed (s : Store) (numRows numCols bufId : Nat) :
    MatrixRef.destroy s (MatrixRef.CreateExternal numRows numCols bufId false) = s ∧
    ∀ h : MatrixRef, h.ownsBuffer = false → MatrixRef.destroy s h = s := by
  constructor
  · rfl
  · intro h hown
    unfold MatrixRef.destroy
    rw [hown]
    simp

theorem C9_external_buffer_not_freed_witness :
    MatrixRef.destroy sWit extWit = sWit :=
  (C9_external_buffer_not_freed sWit 2 3 0).2 extWit rfl

/-- C8: Reshape(rows, cols) succeeds in place exactly when rows*cols equals
the current element count (the same buffer is reinterpreted) and otherwise
fails with ShapeMismatch leaving the handle unchanged; Reshaped does not
mutate the receiver but returns a fresh reference-sharing handle — same
buffer and offset — carrying the new shape. -/
theorem C8_reshape_shape_check (h : MatrixRef) (numRows numCols : Nat) :
    (numRows * numCols = h.rows * h.cols →
      h.Reshape numRows numCols
        = ({ h with rows := numRows, cols := numCols }, none)) ∧
    (numRows * numCols ≠ h.rows * h.cols →
      h.Reshape numRows numCols = (h, some MatrixError.ShapeMismatch)) ∧
    (numRows * numCols = h.rows * h.cols →
      (h.Reshaped numRows numCols).2 = none ∧
      (h.Reshaped numRows numCols).1.bufId = h.bufId ∧
      (h.Reshaped numRows numCols).1.off = h.off ∧
      (h.Reshaped numRows numCols).1.rows = numRows ∧
      (h.Reshaped numRows numCols).1.cols = numCols) := by
  refine ⟨?_, ?_, ?_⟩
  · intro he
    unfold MatrixRef.Reshape
    rw [if_pos he]
  · intro he
    unfold MatrixRef.Reshape
    rw [if_neg he]
  · intro he
    simp [MatrixRef.Reshaped, MatrixRef.AsReference, MatrixRef.ColumnSlice,
      MatrixRef.Reshape, he]

theorem C8_reshape_shape_check_witness :
    (srcWit.Reshape 3 2 = ({ srcWit with rows := 3, cols := 2 }, none)) ∧
    (srcWit.Reshape 4 2 = (srcWit, some MatrixError.ShapeMismatch)) :=
  ⟨(C8_reshape_shape_check srcWit 3 2).1 rfl,
   (C8_reshape_shape_check srcWit 4 2).2.1 (by decide)⟩

theorem bufAt_updateBuf_self (s : Store) (i : Nat) (f : List ℚ → List ℚ)
    (h : i < s.bufs.length) : (s.updateBuf i f).bufAt i = f (s.bufAt i) := by
  unfold Store.updateBuf Store.bufAt
  rw [List.getD_eq_getElem?_getD]
  simp [List.getElem?_set_self, h]

theorem bufAt_updateBuf_ne (s : Store) (i j : Nat) (f : List ℚ → List ℚ)
    (h : i ≠ j) : (s.updateBuf i f).bufAt j = s.bufAt j := by
  unfold Store.updateBuf Store.bufAt
  rw [List.getD_eq_getElem?_getD, List.getD_eq_getElem?_getD, List.getElem?_set_ne h]
  exact (List.getD_eq_getElem?_getD _ _ _).symm

/-- C3: AssignColumnSlice reassigns by reference — the target aliases the
sliced source columns, so a mutation of the sliced source region is
observable through the target — while SetColumnSlice copies by value into
the target's own storage, so the copied values are present but a subsequent
source mutation is NOT observable through the target. -/
theorem C3_columnSlice_alias_vs_copy :
    (∀ (s : Store) (tgt src : MatrixRef) (startColumn numCols r j : Nat) (v : ℚ),
      r < src.rows → j < numCols → startColumn + numCols ≤ src.cols →
      src.off + src.cols * src.rows ≤ (s.bufAt src.bufId).length →
      src.bufId < s.bufs.length →
      MatrixRef.read (MatrixRef.write s src r (startColumn + j) v)
        (MatrixRef.AssignColumnSlice tgt src startColumn numCols) r j = v) ∧
    (∀ (s : Store) (tgt src : MatrixRef) (startColumn numCols r c r2 c2 : Nat) (v : ℚ),
      tgt.bufId ≠ src.bufId →
      MatrixRef.read
          (MatrixRef.write (MatrixRef.SetColumnSlice s tgt src startColumn numCols)
            src r2 c2 v) tgt r c
        = MatrixRef.read (MatrixRef.SetColumnSlice s tgt src startColumn numCols)
            tgt r c) ∧
    (∀ (s : Store) (tgt src : MatrixRef) (startColumn numCols r j : Nat),
      r < tgt.rows → j < numCols → startColumn + numCols ≤ tgt.cols →
      tgt.off + tgt.cols * tgt.rows ≤ (s.bufAt tgt.bufId).length →
      tgt.bufId < s.bufs.length →
      MatrixRef.read (MatrixRef.SetColumnSlice s tgt src startColumn numCols)
          tgt r (startColumn + j)
        = MatrixRef.read s src r j) := by
  refine ⟨?_, ?_, ?_⟩
  · intro s tgt src startColumn numCols r j v hr hj hrange hlen hbid
    have hcj : startColumn + j < src.cols := by omega
    have hidx : (startColumn + j) * src.rows + r < src.rows * src.cols :=
      idx_lt hr hcj
    have hmc : src.rows * src.cols = src.cols * src.rows := Nat.mul_comm _ _
    unfold MatrixRef.read MatrixRef.write MatrixRef.AssignColumnSlice
    rw [bufAt_updateBuf_self s src.bufId _ hbid]
    have heq : src.off + startColumn * src.rows + (j * src.rows + r)
        = src.off + ((startColumn + j) * src.rows + r) := by
      rw [Nat.add_mul]
      ring
    simp only [heq]
    exact getD_set_self _ _ _ (by omega)
  · intro s tgt src startColumn numCols r c r2 c2 v hne
    unfold MatrixRef.read MatrixRef.write
    rw [bufAt_updateBuf_ne _ _ _ _ (Ne.symm hne)]
  · intro s tgt src startColumn numCols r j hr hj hrange hlen hbid
    have hcj : startColumn + j < tgt.cols := by omega
    have hidx : (startColumn + j) * tgt.rows + r < tgt.rows * tgt.cols :=
      idx_lt hr hcj
    have hmc : tgt.rows * tgt.cols = tgt.cols * tgt.rows := Nat.mul_comm _ _
    unfold MatrixRef.read MatrixRef.SetColumnSlice
    rw [bufAt_updateBuf_self s tgt.bufId _ hbid]
    rw [getD_map_range _ _ _ _ (by omega)]
    rw [if_pos ?_]
    · have hsub : tgt.off + ((startColumn + j) * tgt.rows + r)
          - (tgt.off + startColumn * tgt.rows) = j * tgt.rows + r := by
        have hdm : (startColumn + j) * tgt.rows
            = startColumn * tgt.rows + j * tgt.rows := Nat.add_mul _ _ _
        omega
      rw [hsub, idx_mod hr, idx_div hr]
      rfl
    · constructor
      · have hdm : (startColumn + j) * tgt.rows
            = startColumn * tgt.rows + j * tgt.rows := Nat.add_mul _ _ _
        omega
      · have hdm : (startColumn + j) * tgt.rows
            = startColumn * tgt.rows + j * tgt.rows := Nat.add_mul _ _ _
        have hdm2 : (startColumn + numCols) * tgt.rows
            = startColumn * tgt.rows + numCols * tgt.rows := Nat.add_mul _ _ _
        have hjr : j * tgt.rows + r < numCols * tgt.rows := by
          have := idx_lt hr hj
          have : tgt.rows * numCols = numCols * tgt.rows := Nat.mul_comm _ _
          omega
        omega

theorem C3_columnSlice_alias_vs_copy_witness :
    (MatrixRef.read (MatrixRef.write sWit srcWit 1 1 9)
        (MatrixRef.AssignColumnSlice tgtWit srcWit 1 2) 1 0 = 9) ∧
    (MatrixRef.read
        (MatrixRef.write (MatrixRef.SetColumnSlice sWit tgtWit srcWit 1 2) srcWit 0 0 7)
        tgtWit 0 1
      = MatrixRef.read (MatrixRef.SetColumnSlice sWit tgtWit srcWit 1 2) tgtWit 0 1) ∧
    (MatrixRef.read (MatrixRef.SetColumnSlice sWit tgtWit srcWit 1 2) tgtWit 0 1
      = MatrixRef.read sWit srcWit 0 0) :=
  ⟨C3_columnSlice_alias_vs_copy.1 sWit tgtWit srcWit 1 2 1 0 9
      (by decide) (by decide) (by decide) (by decide) (by decide),
   C3_columnSlice_alias_vs_copy.2.1 sWit tgtWit srcWit 1 2 0 1 0 0 7 (by decide),
   C3_columnSlice_alias_vs_copy.2.2 sWit tgtWit srcWit 1 2 0 0
      (by decide) (by decide) (by decide) (by decide) (by decide)⟩

theorem read_DeepClone_source (s : Store) (h : MatrixRef)
    (hbid : h.bufId < s.bufs.length) (r c : Nat) :
    MatrixRef.read (MatrixRef.DeepClone s h).1 h r c = MatrixRef.read s h r c := by
  unfold MatrixRef.read MatrixRef.DeepClone Store.bufAt
  rw [getD_append_left _ _ _ _ hbid]

theorem read_DeepClone_clone (s : Store) (h : MatrixRef)
    (r c : Nat) (hr : r < h.rows) (hc : c < h.cols) :
    MatrixRef.read (MatrixRef.DeepClone s h).1 (MatrixRef.DeepClone s h).2 r c
      = MatrixRef.read s h r c := by
  unfold MatrixRef.read MatrixRef.DeepClone Store.bufAt MatrixRef.logical
  simp only [Nat.zero_add]
  rw [getD_append_self]
  rw [getD_map_range _ _ _ _ (idx_lt hr hc)]
  rfl

/-- C7: top-level copy construction/assignment is deleted (Matrix.h lines
163-166); the explicit DeepClone produces a handle equal to the source
under AreEqual with the default 1e-8 threshold, backed by freshly allocated
independent storage: mutating the clone is never observable through the
source, and cloning leaves the source's values untouched. -/
theorem C7_deepClone_independent (s : Store) (h : MatrixRef)
    (hbid : h.bufId < s.bufs.length) :
    AreEqual (MatrixRef.DeepClone s h).1 h (MatrixRef.DeepClone s h).2
        (1 / 100000000) ∧
    (∀ r c r2 c2 : Nat, ∀ v : ℚ,
      MatrixRef.read
          (MatrixRef.write (MatrixRef.DeepClone s h).1 (MatrixRef.DeepClone s h).2
            r2 c2 v) h r c
        = MatrixRef.read (MatrixRef.DeepClone s h).1 h r c) ∧
    (∀ r c : Nat,
      MatrixRef.read (MatrixRef.DeepClone s h).1 h r c = MatrixRef.read s h r c) := by
  refine ⟨⟨rfl, rfl, ?_⟩, ?_, ?_⟩
  · intro r c hr hc
    rw [read_DeepClone_source s h hbid, read_DeepClone_clone s h r c hr hc]
    simp
  · intro r c r2 c2 v
    unfold MatrixRef.read MatrixRef.write
    rw [bufAt_updateBuf_ne]
    show (MatrixRef.DeepClone s h).2.bufId ≠ h.bufId
    show s.bufs.length ≠ h.bufId
    omega
  · intro r c
    exact read_DeepClone_source s h hbid r c

theorem C7_deepClone_independent_witness :
    AreEqual (MatrixRef.DeepClone sWit srcWit).1 srcWit
        (MatrixRef.DeepClone sWit srcWit).2 (1 / 100000000) ∧
    (∀ r c r2 c2 : Nat, ∀ v : ℚ,
      MatrixRef.read
          (MatrixRef.write (MatrixRef.DeepClone sWit srcWit).1
            (MatrixRef.DeepClone sWit srcWit).2 r2 c2 v) srcWit r c
        = MatrixRef.read (MatrixRef.DeepClone sWit srcWit).1 srcWit r c) ∧
    (∀ r c : Nat,
      MatrixRef.read (MatrixRef.DeepClone sWit srcWit).1 srcWit r c
        = MatrixRef.read sWit srcWit r c) :=
  C7_deepClone_independent sWit srcWit (by decide)

/-- C1: the location/density invariant on
(m_matrixType, m_currentDataLocation, the backend slots) — at most one
density applies at a time so mixed dense+sparse residency never occurs,
under BOTH the host copy and the device copy exist and are value-equal so
either may be read without a transfer, and under NONE the handle holds no
data — holds for freshly constructed handles and is preserved by every
public operation modelled in this development. -/
theorem C1_location_density_invariant :
    (∀ d, Inv (Matrix.Init d)) ∧
    (∀ r c d ty fmt nnz, Inv (Matrix.Create r c d ty fmt nnz)) ∧
    (∀ m, Inv m → mixedNever m) ∧
    (∀ m, Inv m → Inv m.CollapseDataLocation) ∧
    (∀ m f t bm e u, Inv m → Inv (m.TransferFromDeviceToDevice f t bm e u)) ∧
    (∀ m t bm e u, Inv m → Inv (m.TransferToDeviceIfNotThere t bm e u)) ∧
    (∀ m ty fmt kv, Inv m → Inv (m.SwitchToMatrixType ty fmt kv)) ∧
    (∀ m r c n g, Inv m → Inv (m.Resize r c n g)) ∧
    (∀ m v, Inv m → Inv (m.SetValue v)) ∧
    (∀ m, Inv m → Inv (m.MoveFrom).1 ∧ Inv (m.MoveFrom).2) ∧
    (∀ m, Inv m → Inv m.DeepClone) ∧
    (∀ m, Inv m → Inv m.ReleaseMemory) :=
  ⟨Inv_Init, Inv_Create, Inv_implies_mixedNever, Inv_CollapseDataLocation,
   fun m f t bm e u h => Inv_TransferFromDeviceToDevice m h f t bm e u,
   fun m t bm e u h => Inv_TransferToDeviceIfNotThere m h t bm e u,
   fun m ty fmt kv h => Inv_SwitchToMatrixType m h ty fmt kv,
   fun m r c n g h => Inv_Resize m h r c n g,
   fun m v h => Inv_SetValue m h v,
   Inv_MoveFrom, Inv_DeepClone, Inv_ReleaseMemory⟩

theorem C1_location_density_invariant_witness :
    Inv mWit ∧ mixedNever mWit ∧ Inv mWit.CollapseDataLocation ∧
    Inv (mWit.TransferToDeviceIfNotThere 0 false false true) ∧
    Inv (mWit.SwitchToMatrixType SPARSE MatrixFormat.matrixFormatSparseCSC true) ∧
    Inv (mWit.Resize 3 3 0 true) := by
  have h : Inv mWit := by
    refine ⟨⟨?_, ?_, ?_⟩, ?_, ?_⟩ <;> intro hx <;>
      simp_all [mWit, Matrix.Init]
  exact ⟨h,
    C1_location_density_invariant.2.2.1 mWit h,
    C1_location_density_invariant.2.2.2.1 mWit h,
    C1_location_density_invariant.2.2.2.2.2.1 mWit 0 false false true h,
    C1_location_density_invariant.2.2.2.2.2.2.1 mWit SPARSE
      MatrixFormat.matrixFormatSparseCSC true h,
    C1_location_density_invariant.2.2.2.2.2.2.2.1 mWit 3 3 0 true h⟩

/-- C4: for a dense handle, SwitchToMatrixType(SPARSE, keepValues=true)
followed by SwitchToMatrixType(DENSE, keepValues=true) reproduces the
original values exactly — bit-exact on the stored buffer when it has no
slack, hence within IsEqualTo's default 1e-8 threshold — with zero dense
entries absent from the sparse form, non-zero entries present, and
repeated round-trips producing the identical non-zero set. -/
theorem C4_density_roundtrip (m : Matrix) (b : DenseB)
    (fmt fmt2 : MatrixFormat) (hty : m.m_matrixType = DENSE)
    (hb : m.authDense = some b) :
    ((m.SwitchToMatrixType SPARSE fmt true).authSparse
        = some { rows := b.rows, cols := b.cols,
                 entries := denseToSparse b.rows b.cols b.data }) ∧
    (((m.SwitchToMatrixType SPARSE fmt true).SwitchToMatrixType DENSE fmt2
          true).authDense
        = some { rows := b.rows, cols := b.cols, data := b.values }) ∧
    (b.data.length = b.rows * b.cols → b.values = b.data) ∧
    (∀ r c : Nat, (r, c, (0 : ℚ)) ∉ denseToSparse b.rows b.cols b.data) ∧
    (∀ r c : Nat, r < b.rows → c < b.cols → b.get r c ≠ 0 →
      (r, c, b.get r c) ∈ denseToSparse b.rows b.cols b.data) ∧
    (denseToSparse b.rows b.cols b.values = denseToSparse b.rows b.cols b.data) ∧
    DenseB.IsEqualTo { rows := b.rows, cols := b.cols, data := b.values } b
      (1 / 100000000) := by
  have h1 : (m.SwitchToMatrixType SPARSE fmt true).authSparse
      = some { rows := b.rows, cols := b.cols,
               entries := denseToSparse b.rows b.cols b.data } ∧
      (m.SwitchToMatrixType SPARSE fmt true).m_matrixType = SPARSE := by
    cases hg : m.authIsGpu <;>
      simp_all [Matrix.SwitchToMatrixType, Matrix.authSparse, Matrix.authIsGpu,
        Matrix.authDense, hty]
  have h2 : ((m.SwitchToMatrixType SPARSE fmt true).SwitchToMatrixType DENSE fmt2
        true).authDense
      = some { rows := b.rows, cols := b.cols, data := b.values } := by
    obtain ⟨ha, hsp⟩ := h1
    cases hg1 : (m.SwitchToMatrixType SPARSE fmt true).authIsGpu <;>
      simp_all [Matrix.SwitchToMatrixType, Matrix.authSparse, Matrix.authIsGpu,
        Matrix.authDense, sparseToDense_denseToSparse, DenseB.values]
  refine ⟨h1.1, h2, ?_, ?_, ?_, ?_, ?_⟩
  · intro hlen
    unfold DenseB.values
    rw [← hlen]
    exact getD_self_map_range b.data
  · intro r c hmem
    obtain ⟨i, hi, hEq, hnz⟩ := mem_denseToSparse hmem
    rw [Prod.mk.injEq, Prod.mk.injEq] at hEq
    exact hnz hEq.2.2.symm
  · intro r c hr hc hnz
    have hi : c * b.rows + r < b.rows * b.cols := idx_lt hr hc
    have hmem := denseToSparse_mem (d := b.data) hi hnz
    rw [idx_mod hr, idx_div hr] at hmem
    exact hmem
  · exact denseToSparse_logical b.rows b.cols b.data
  · refine ⟨rfl, rfl, ?_⟩
    intro r c hr hc
    have hi : c * b.rows + r < b.rows * b.cols := idx_lt hr hc
    show |({ rows := b.rows, cols := b.cols, data := b.values } : DenseB).get r c
        - b.get r c| ≤ 1 / 100000000
    unfold DenseB.get DenseB.values
    rw [getD_map_range _ _ _ _ hi]
    show |b.data.getD (c * b.rows + r) 0 - b.data.getD (c * b.rows + r) 0|
        ≤ 1 / 100000000
    rw [sub_self, abs_zero]
    norm_num

theorem C4_density_roundtrip_witness :
    ((mWit.SwitchToMatrixType SPARSE MatrixFormat.matrixFormatSparseCSC
        true).authSparse
      = some { rows := bWit.rows, cols := bWit.cols,
               entries := denseToSparse bWit.rows bWit.cols bWit.data }) ∧
    (((mWit.SwitchToMatrixType SPARSE MatrixFormat.matrixFormatSparseCSC
          true).SwitchToMatrixType DENSE MatrixFormat.matrixFormatDense
          true).authDense
      = some { rows := bWit.rows, cols := bWit.cols, data := bWit.values }) ∧
    (bWit.data.length = bWit.rows * bWit.cols → bWit.values = bWit.data) ∧
    (∀ r c : Nat, (r, c, (0 : ℚ)) ∉ denseToSparse bWit.rows bWit.cols bWit.data) ∧
    (∀ r c : Nat, r < bWit.rows → c < bWit.cols → bWit.get r c ≠ 0 →
      (r, c, bWit.get r c) ∈ denseToSparse bWit.rows bWit.cols bWit.data) ∧
    (denseToSparse bWit.rows bWit.cols bWit.values
      = denseToSparse bWit.rows bWit.cols bWit.data) ∧
    DenseB.IsEqualTo { rows := bWit.rows, cols := bWit.cols, data := bWit.values }
      bWit (1 / 100000000) :=
  C4_density_roundtrip mWit bWit MatrixFormat.matrixFormatSparseCSC
    MatrixFormat.matrixFormatDense rfl rfl

end CNTK
